import Mathlib

/-!
# Verification of the Procastify canvas engine (src/components/canvas/CanvasEngine.ts)

A shallow embedding of the drawing engine's data model and event handlers,
translated from the TypeScript source, together with proofs of the frozen
specification claims.  Coordinates are modelled over `ℚ` (the source uses
IEEE doubles; all claimed identities are exact rational identities, so `ℚ`
is the faithful exact model).  JSON serialization round-trips shape data, so
the local fallback store is modelled as a partial map from keys to scenes.

The engine's `SelectionController` and `types.ts` modules are not part of
the available source; where a claim needs them, their state and operations
are modelled from the spec (marked `Modelled from the spec:` below) and the
hit-test predicates are left as abstract parameters, exactly as the engine
code consumes them (`this.selectionController.isPointInShape(x, y, s)`).
-/

namespace Procastify

/-- The tool state, from `setTool` / `activeTool` in `CanvasEngine.ts`
(`ToolType` itself lives in the absent `types.ts`; the constructors are the
string tags the engine dispatches on: "selection", "grab", "eraser", "text",
"rectangle", "ellipse", "diamond", "line", "arrow", "free-draw"). -/
inductive ToolType where
  | selection
  | grab
  | eraser
  | text
  | rectangle
  | ellipse
  | diamond
  | line
  | arrow
  | freeDraw
  deriving DecidableEq, Repr

/-- Shape variants as constructed and mutated by `CanvasEngine.ts`
(`handleMouseDown` creation sites, `handleMouseMove` drawing updates,
`drawShape` field reads).  Geometry fields are exact rationals; style
fields that the verified claims never inspect (`strokeStyle`,
`roughStyle`, `fillStyle`, `rounded`, font settings) are carried as
strings/rationals where the claims touch them and omitted otherwise. -/
inductive Shape where
  | rectangle (id : String) (x y width height : ℚ)
      (strokeWidth : ℚ) (strokeFill bgFill : String)
  | ellipse (id : String) (x y radX radY : ℚ)
      (strokeWidth : ℚ) (strokeFill bgFill : String)
  | diamond (id : String) (x y width height : ℚ)
      (strokeWidth : ℚ) (strokeFill bgFill : String)
  | line (id : String) (x y toX toY : ℚ)
      (strokeWidth : ℚ) (strokeFill : String)
  | arrow (id : String) (x y toX toY : ℚ)
      (strokeWidth : ℚ) (strokeFill : String)
  | freeDraw (id : String) (x y : ℚ) (points : List (ℚ × ℚ))
      (strokeWidth : ℚ) (strokeFill bgFill : String)
  | text (id : String) (x y : ℚ) (content : String)
      (strokeWidth : ℚ) (strokeFill : String)
  deriving DecidableEq, Repr

/-- A scene: the ordered sequence of shapes (`this.shapes`). -/
abbrev Scene := List Shape

/-- A point-in-shape hit test, the signature of
`SelectionController.isPointInShape(x, y, shape)` as the engine calls it.
The controller's source is absent, so handlers take the test as a
parameter. -/
abbrev HitFun := ℚ → ℚ → Shape → Bool

/-! ## Coordinate system (`getWorldPos`, lines 156–196, and `render`,
lines 199–238) -/

/-- `render` reads `window.devicePixelRatio || 1` (line 200): a falsy
(zero) ratio falls back to `1`. -/
def effectiveDpr (raw : ℚ) : ℚ :=
  if raw = 0 then 1 else raw

/-- The render transform of `render` (lines 226–230):
`ctx.setTransform(dpr*scale, 0, 0, dpr*scale, dpr*panX, dpr*panY)` maps a
world point `(x, y)` to the device-pixel position
`(dpr*scale*x + dpr*panX, dpr*scale*y + dpr*panY)`. -/
def renderTransform (rawDpr scale panX panY : ℚ) (p : ℚ × ℚ) : ℚ × ℚ :=
  let dpr := effectiveDpr rawDpr
  (dpr * scale * p.1 + dpr * panX, dpr * scale * p.2 + dpr * panY)

/-- Device pixels relate to CSS pixels by the device pixel ratio (with the
same falsy-to-1 normalization the renderer applies): `css = device / dpr`. -/
def deviceToCss (rawDpr : ℚ) (p : ℚ × ℚ) : ℚ × ℚ :=
  let dpr := effectiveDpr rawDpr
  (p.1 / dpr, p.2 / dpr)

/-- The forward pointer→world mapping of `getWorldPos` (lines 192–195):
`worldX = (x_css - panX) / scale`, `worldY = (y_css - panY) / scale`. -/
def pointerToWorld (scale panX panY : ℚ) (p : ℚ × ℚ) : ℚ × ℚ :=
  ((p.1 - panX) / scale, (p.2 - panY) / scale)

/-- C1: Coordinate round-trip.  For every world point and every pan/zoom/
device-pixel-ratio configuration with nonzero zoom scale, mapping the world
point through the render transform to device pixels and back through the
forward pointer→world formula reproduces the original world point exactly
(over ℚ).  A zero raw device pixel ratio is normalized to 1 by the
renderer (`window.devicePixelRatio || 1`), so only `scale ≠ 0` is needed. -/
theorem coordinate_roundtrip (rawDpr scale panX panY : ℚ) (w : ℚ × ℚ)
    (hs : scale ≠ 0) :
    pointerToWorld scale panX panY
      (deviceToCss rawDpr (renderTransform rawDpr scale panX panY w)) = w := by
  have hd : effectiveDpr rawDpr ≠ 0 := by
    unfold effectiveDpr
    split
    · exact one_ne_zero
    · assumption
  obtain ⟨wx, wy⟩ := w
  simp only [pointerToWorld, deviceToCss, renderTransform, Prod.mk.injEq]
  constructor <;> field_simp

/-- Witness for C1 at a concrete configuration. -/
theorem coordinate_roundtrip_witness :
    (3 : ℚ) ≠ 0 ∧
      pointerToWorld 3 7 (-2)
        (deviceToCss 2 (renderTransform 2 3 7 (-2) (5, 11))) = (5, 11) :=
  ⟨by norm_num, coordinate_roundtrip 2 3 7 (-2) (5, 11) (by norm_num)⟩

/-! ## Engine state

The mutable instance fields of `CanvasEngine` that the verified claims
read or write.  `selected`, `selDragging`, `selResizing` model the
selection controller's state (Modelled from the spec: the
`SelectionController` source is absent; per §3 it holds "at most one
selected shape reference at a time", set via `setSelectedShape` and the
drag/resize session flags, and `CanvasEngine.loadElements` never calls
into it).  `saveScheduled` records that `this.save()` was invoked (a
debounced write is pending); `renderCount` counts `this.render()` calls. -/
structure EngineState where
  shapes : Scene
  selected : Option Shape
  selDragging : Bool
  selResizing : Bool
  canvasId : String
  readOnly : Bool
  activeTool : ToolType
  isDrawing : Bool
  isPanning : Bool
  startX : ℚ
  startY : ℚ
  scale : ℚ
  panX : ℚ
  panY : ℚ
  lastMouseX : ℚ
  lastMouseY : ℚ
  styleStrokeWidth : ℚ
  styleStrokeFill : String
  styleBgFill : String
  saveScheduled : Bool
  renderCount : Nat
  deriving DecidableEq, Repr

/-! ## Persistence bridge (`persistToStorage`, lines 105–116) -/

/-- The local fallback store (browser `localStorage`), keyed by string.
JSON stringify/parse round-trips shape data, so values are modelled as the
scenes themselves. -/
abbrev LocalStore := String → Option Scene

/-- The localStorage key `` `procastify_canvas_${this.canvasId}` ``
(lines 66 and 113). -/
def canvasKey (canvasId : String) : String :=
  "procastify_canvas_" ++ canvasId

/-- Outcome of one fired `persistToStorage` call.  `state` is the engine
state afterwards (the method never mutates the scene), `localStore` the
fallback store afterwards, `remoteAttempted` whether
`StorageService.saveCanvasElements` was invoked at all, `remoteWrite` the
payload of a *successful* remote write, and `failureLogged` whether the
catch branch ran (the rejection is logged and absorbed, never rethrown:
the model is a total function). -/
structure PersistOutcome where
  state : EngineState
  localStore : LocalStore
  remoteAttempted : Bool
  remoteWrite : Option (String × Scene)
  failureLogged : Bool

/-- `persistToStorage` (lines 105–116): guard clause
`if (!this.canvasId || this.canvasId === 'undefined' || this.readOnly) return`,
then `await StorageService.saveCanvasElements(this.canvasId, this.shapes)`;
on rejection, log and write the serialized scene to localStorage under
`canvasKey`.  `remoteOk` models whether the remote promise resolves. -/
def persistToStorage (st : EngineState) (ls : LocalStore) (remoteOk : Bool) :
    PersistOutcome :=
  if st.canvasId = "" ∨ st.canvasId = "undefined" ∨ st.readOnly then
    ⟨st, ls, false, none, false⟩
  else if remoteOk then
    ⟨st, ls, true, some (st.canvasId, st.shapes), false⟩
  else
    ⟨st, fun k => if k = canvasKey st.canvasId then some st.shapes else ls k,
      true, none, true⟩

/-- C4: Fallback-on-failure.  For every fired write that passes the guard
(nonempty canvas id, not the literal "undefined", not read-only) and whose
remote save rejects, the local fallback store afterwards maps the key
`"procastify_canvas_<canvasId>"` to the serialization of the current
in-memory scene, the in-memory scene is untouched, and the failure is
logged rather than rethrown (the call completes normally). -/
theorem persist_fallback_on_failure (st : EngineState) (ls : LocalStore)
    (hid : st.canvasId ≠ "") (hud : st.canvasId ≠ "undefined")
    (hro : st.readOnly = false) :
    (persistToStorage st ls false).localStore (canvasKey st.canvasId)
        = some st.shapes ∧
      (persistToStorage st ls false).state = st ∧
      (persistToStorage st ls false).failureLogged = true := by
  unfold persistToStorage
  rw [if_neg, if_neg]
  · exact ⟨by simp, rfl, rfl⟩
  · exact Bool.not_eq_true _ ▸ hro ▸ by simp
  · push_neg
    exact ⟨hid, hud, by simp [hro]⟩

/-- Witness for C4 at a concrete engine state and empty fallback store. -/
theorem persist_fallback_on_failure_witness :
    letI st : EngineState :=
      ⟨[Shape.text "t1" 0 0 "hi" 2 "#ffffff"], none, false, false, "c1",
        false, ToolType.selection, false, false, 0, 0, 1, 0, 0, 0, 0, 2,
        "#ffffff", "transparent", false, 0⟩
    (persistToStorage st (fun _ => none) false).localStore (canvasKey "c1")
        = some [Shape.text "t1" 0 0 "hi" 2 "#ffffff"] :=
  (persist_fallback_on_failure _ _ (by decide) (by decide) rfl).1

/-- C9: Persistence guard.  A fired write whose engine has an empty canvas
id, the literal id "undefined", or read-only mode returns without touching
the remote store or the local fallback, and leaves the engine state (in
particular the scene) unchanged. -/
theorem persist_guard (st : EngineState) (ls : LocalStore) (remoteOk : Bool)
    (h : st.canvasId = "" ∨ st.canvasId = "undefined" ∨ st.readOnly = true) :
    (persistToStorage st ls remoteOk).remoteAttempted = false ∧
      (persistToStorage st ls remoteOk).remoteWrite = none ∧
      (persistToStorage st ls remoteOk).localStore = ls ∧
      (persistToStorage st ls remoteOk).state = st := by
  unfold persistToStorage
  rw [if_pos]
  · exact ⟨rfl, rfl, rfl, rfl⟩
  · rcases h with h | h | h
    · exact Or.inl h
    · exact Or.inr (Or.inl h)
    · exact Or.inr (Or.inr (by simp [h]))

/-- Witness for C9 at a concrete read-only engine state. -/
theorem persist_guard_witness :
    letI st : EngineState :=
      ⟨[], none, false, false, "c2", true, ToolType.eraser, false, false,
        0, 0, 1, 0, 0, 0, 0, 2, "#ffffff", "transparent", true, 0⟩
    (persistToStorage st (fun _ => none) true).remoteAttempted = false ∧
      (persistToStorage st (fun _ => none) true).state = st :=
  letI st : EngineState :=
    ⟨[], none, false, false, "c2", true, ToolType.eraser, false, false,
      0, 0, 1, 0, 0, 0, 0, 2, "#ffffff", "transparent", true, 0⟩
  ⟨(persist_guard st (fun _ => none) true (Or.inr (Or.inr rfl))).1,
    (persist_guard st (fun _ => none) true (Or.inr (Or.inr rfl))).2.2.2⟩

/-! ## Initialization and remote reconciliation (`init`, lines 63–78, and
`loadFromFirestore`, lines 80–93) -/

/-- The synchronous part of `init` (lines 64–71): read
`localStorage.getItem("procastify_canvas_<id>")` and parse it into the
scene, keeping the initial empty scene when the key is absent (or the
read/parse throws). -/
def initShapes (ls : LocalStore) (canvasId : String) : Scene :=
  (ls (canvasKey canvasId)).getD []

/-- The effect of `loadFromFirestore` on the scene (lines 80–93): the
awaited `StorageService.getCanvasElements` result replaces the scene only
when it is a present, non-empty list (`if (elements && elements.length > 0)`);
a missing result or a rejection (caught and logged) leaves the scene as
it is.  `remote = none` models both null/undefined and rejection. -/
def applyFirestoreResult (shapes : Scene) (remote : Option Scene) : Scene :=
  match remote with
  | some elements => if 0 < elements.length then elements else shapes
  | none => shapes

/-- C2: Reconciliation-on-load.  The scene is first populated from the
local fallback store (`initShapes`); the asynchronous remote fetch
replaces the in-memory scene only when it returns a non-empty sequence,
and in particular for every non-empty locally loaded scene a remote result
of zero shapes leaves the scene unchanged. -/
theorem reconciliation_on_load :
    (∀ (shapes : Scene) (remote : Option Scene),
        applyFirestoreResult shapes remote ≠ shapes →
          ∃ elements, remote = some elements ∧ elements ≠ []) ∧
      ∀ (ls : LocalStore) (canvasId : String),
        initShapes ls canvasId ≠ [] →
          applyFirestoreResult (initShapes ls canvasId) (some [])
            = initShapes ls canvasId := by
  constructor
  · intro shapes remote h
    match remote with
    | none => exact absurd rfl h
    | some elements =>
      refine ⟨elements, rfl, ?_⟩
      intro he
      apply h
      simp [applyFirestoreResult, he]
  · intro ls canvasId _
    simp [applyFirestoreResult]

/-- Witness for C2: a local scene of three shapes survives an empty remote
result. -/
theorem reconciliation_on_load_witness :
    letI sceneThree : Scene :=
      [Shape.text "a" 0 0 "x" 2 "#fff", Shape.text "b" 1 1 "y" 2 "#fff",
        Shape.text "c" 2 2 "z" 2 "#fff"]
    letI ls : LocalStore := fun k =>
      if k = canvasKey "c3" then some sceneThree else none
    initShapes ls "c3" ≠ [] ∧
      applyFirestoreResult (initShapes ls "c3") (some [])
        = initShapes ls "c3" :=
  ⟨by decide, reconciliation_on_load.2 _ "c3" (by decide)⟩

/-! ## Debounced save scheduler (`save`, lines 95–103)

`save()` clears any pending timeout and schedules `persistToStorage` 500ms
later.  The timer machine is modelled event-wise: a mutation event at time
`t` (in ms) with resulting scene `s` cancels the pending timer (if its
deadline has not already passed) and schedules a new deadline `t + 500`.
A pending timer whose deadline `d` lies strictly before the next event
fires first, invoking the persist call with the scene current at that
moment (the timeout closure reads `this.shapes` when it runs, not when it
was scheduled).  After the last event the remaining pending timer fires. -/

/-- One mutation calling `save`: (time in ms, scene after the mutation). -/
abbrev SaveEvent := ℕ × Scene

/-- Run the debounce timer over a time-ordered list of `save` calls,
starting from a pending deadline and the current scene; returns the scenes
carried by the persist calls that actually fire, in order. -/
def runSaves : List SaveEvent → Option ℕ → Scene → List Scene
  | [], none, _ => []
  | [], some _, current => [current]
  | (t, s) :: rest, pending, current =>
      let fired :=
        match pending with
        | some d => if d < t then [current] else []
        | none => []
      fired ++ runSaves rest (some (t + 500)) s

/-- All persist calls fired by a time-ordered sequence of `save` calls,
starting with no pending timer and an irrelevant initial scene (the first
event always reschedules before anything can fire). -/
def debounceWrites (events : List SaveEvent) : List Scene :=
  runSaves events none []

/-- The scene current after a sequence of mutation events, starting from
`current`: the scene of the last event, or `current` when there is none. -/
def lastScene : List SaveEvent → Scene → Scene
  | [], current => current
  | (_, s) :: rest, _ => lastScene rest s

/-- `lastScene` of a nonempty event list is the last event's scene. -/
theorem lastScene_eq_getLast (events : List SaveEvent) (h : events ≠ [])
    (current : Scene) :
    lastScene events current = (events.getLast h).2 := by
  induction events generalizing current with
  | nil => exact absurd rfl h
  | cons e rest ih =>
    obtain ⟨t, s⟩ := e
    cases rest with
    | nil => rfl
    | cons f fs =>
      rw [show lastScene ((t, s) :: f :: fs) current
          = lastScene (f :: fs) s from rfl,
        ih (List.cons_ne_nil f fs) s,
        List.getLast_cons (List.cons_ne_nil f fs)]

/-- Helper: with a pending deadline not before the first event, and every
later event within 500ms of its predecessor, nothing fires until the end,
and the final fire carries the scene current after the last event. -/
theorem runSaves_quiescent (events : List SaveEvent) (d : ℕ) (current : Scene)
    (hchain : events.Chain' fun a b => b.1 ≤ a.1 + 500)
    (hhead : ∀ e ∈ events.head?, e.1 ≤ d) :
    runSaves events (some d) current = [lastScene events current] := by
  induction events generalizing d current with
  | nil => simp [runSaves, lastScene]
  | cons e rest ih =>
    obtain ⟨t, s⟩ := e
    have ht : t ≤ d := hhead (t, s) rfl
    have hnf : ¬ d < t := not_lt.mpr ht
    rw [List.chain'_cons'] at hchain
    have step : runSaves ((t, s) :: rest) (some d) current
        = runSaves rest (some (t + 500)) s := by
      simp [runSaves, hnf]
    rw [step, ih (t + 500) s hchain.2 (fun e he => hchain.1 e he)]
    rfl

/-- C3: Debounce coalescing.  Every `save` call cancels the pending write
and schedules a new one 500ms out; hence a sequence of N ≥ 1 mutations,
each within 500ms of the previous, fires exactly one persist call, and it
carries the final scene state (the scene of the last mutation). -/
theorem debounce_coalescing (first : SaveEvent) (rest : List SaveEvent)
    (hchain : (first :: rest).Chain' fun a b => b.1 ≤ a.1 + 500) :
    debounceWrites (first :: rest)
      = [((first :: rest).getLast (List.cons_ne_nil first rest)).2] := by
  obtain ⟨t, s⟩ := first
  rw [List.chain'_cons'] at hchain
  have step : debounceWrites ((t, s) :: rest)
      = runSaves rest (some (t + 500)) s := by
    simp [debounceWrites, runSaves]
  rw [step, runSaves_quiescent rest (t + 500) s hchain.2
    (fun e he => hchain.1 e he),
    ← lastScene_eq_getLast ((t, s) :: rest) (List.cons_ne_nil _ _) []]
  rfl

/-- Witness for C3: three mutations at 0ms, 300ms and 700ms (each within
500ms of the previous) produce exactly one persist call carrying the last
scene. -/
theorem debounce_coalescing_witness :
    letI s1 : Scene := [Shape.text "a" 0 0 "x" 2 "#fff"]
    letI s2 : Scene := [Shape.text "a" 0 0 "x" 2 "#fff",
      Shape.text "b" 1 1 "y" 2 "#fff"]
    letI events : List SaveEvent := [(0, s1), (300, s2), (700, [])]
    events.Chain' (fun a b => b.1 ≤ a.1 + 500) ∧
      debounceWrites events = [[]] := by
  refine ⟨by norm_num [List.chain'_cons], ?_⟩
  have h := debounce_coalescing (0, [Shape.text "a" 0 0 "x" 2 "#fff"])
    [(300, [Shape.text "a" 0 0 "x" 2 "#fff",
      Shape.text "b" 1 1 "y" 2 "#fff"]), (700, [])]
    (by norm_num [List.chain'_cons])
  simpa using h

/-! ## Pointer event handlers (`handleMouseDown`, lines 299–371;
`handleMouseMove`, lines 373–437; `handleMouseUp`, lines 439–453)

The handlers receive the pointer's client position (for pan deltas and the
rect cache) and its world position `(x, y)` — the value the source obtains
from `this.getWorldPos(e)` — plus the abstract selection-controller
queries. -/

/-- Resize-handle query at a world point for a shape: the composition of
`SelectionController.getShapeBounds` and `getResizeHandleAtPoint`
returning whether any handle is hit (Modelled from the spec: the
`SelectionController` source is absent; §4.3 specifies eight handles on
the normalized bounding box). -/
abbrev HandleFun := ℚ → ℚ → Shape → Bool

/-- Selection-branch pointer-move update (Modelled from the spec: the
`SelectionController` drag/resize updates of §4.3 live in the absent
source; `handleMouseMove` lines 388–398 delegate to it and render).  Kept
abstract; the verified claims never exercise this branch. -/
abbrev SelMoveFun := EngineState → ℚ → ℚ → EngineState

/-- The zero-extent shape appended on pointer-down by each drawing tool
(lines 352–370): anchored at the world position, styled from the engine's
current style fields; `none` for the non-drawing tools, which return
before reaching the drawing section. -/
def newShapeFor (tool : ToolType) (id : String) (x y sw : ℚ)
    (sf bf : String) : Option Shape :=
  match tool with
  | .freeDraw => some (.freeDraw id x y [(x, y)] sw sf bf)
  | .rectangle => some (.rectangle id x y 0 0 sw sf bf)
  | .ellipse => some (.ellipse id x y 0 0 sw sf bf)
  | .line => some (.line id x y x y sw sf)
  | .arrow => some (.arrow id x y x y sw sf)
  | .diamond => some (.diamond id x y 0 0 sw sf bf)
  | _ => none

/-- Lines 339–343: scan the shapes topmost-first (reversed draw order) for
the first whose hit-test contains the point, select it or nothing, begin
dragging when a shape was hit, and render. -/
def selectTopmost (hit : HitFun) (st : EngineState) (x y : ℚ) : EngineState :=
  let clicked := st.shapes.reverse.find? fun s => hit x y s
  { st with
    selected := clicked,
    selDragging := clicked.isSome,
    renderCount := st.renderCount + 1 }

/-- `handleMouseDown` (lines 299–371).  `(x, y)` is the world position
`getWorldPos(e)`; `newId` the fresh `uuidv4()`.  Note the source has no
read-only guard on this path. -/
def handleMouseDown (hit : HitFun) (handleAt : HandleFun) (st : EngineState)
    (clientX clientY x y : ℚ) (newId : String) : EngineState :=
  let st := { st with lastMouseX := clientX, lastMouseY := clientY }
  if st.activeTool = .grab then
    { st with isPanning := true }
  else
    let st := { st with startX := x, startY := y }
    if st.activeTool = .eraser then
      { st with
        shapes := st.shapes.filter fun s => !(hit x y s),
        saveScheduled := true,
        renderCount := st.renderCount + 1 }
    else if st.activeTool = .selection then
      match st.selected with
      | some sel =>
          if handleAt x y sel then { st with selResizing := true }
          else if hit x y sel then { st with selDragging := true }
          else selectTopmost hit st x y
      | none => selectTopmost hit st x y
    else if st.activeTool = .text then
      st
    else
      match newShapeFor st.activeTool newId x y st.styleStrokeWidth
          st.styleStrokeFill st.styleBgFill with
      | some sh => { st with isDrawing := true, shapes := st.shapes ++ [sh] }
      | none => { st with isDrawing := true }

/-- The drawing-tool pointer-move mutation of the in-progress shape
(lines 421–434): free-draw appends the sample point; rectangle/diamond set
`width/height` to the (possibly negative) drag extents; ellipse sets the
radii to half the absolute extents and recenters the anchor; line/arrow
move the far endpoint; text has no case in the source switch. -/
def updateDrawnShape (startX startY x y : ℚ) : Shape → Shape
  | .freeDraw id sx sy pts sw sf bf =>
      .freeDraw id sx sy (pts ++ [(x, y)]) sw sf bf
  | .rectangle id sx sy _ _ sw sf bf =>
      .rectangle id sx sy (x - startX) (y - startY) sw sf bf
  | .diamond id sx sy _ _ sw sf bf =>
      .diamond id sx sy (x - startX) (y - startY) sw sf bf
  | .ellipse id _ _ _ _ sw sf bf =>
      .ellipse id (startX + (x - startX) / 2) (startY + (y - startY) / 2)
        (|x - startX| / 2) (|y - startY| / 2) sw sf bf
  | .line id sx sy _ _ sw sf => .line id sx sy x y sw sf
  | .arrow id sx sy _ _ sw sf => .arrow id sx sy x y sw sf
  | .text id sx sy c sw sf => .text id sx sy c sw sf

/-- `handleMouseMove` (lines 373–437).  `buttons` is `e.buttons`. -/
def handleMouseMove (hit : HitFun) (selMove : SelMoveFun) (st : EngineState)
    (clientX clientY x y : ℚ) (buttons : ℕ) : EngineState :=
  let deltaX := clientX - st.lastMouseX
  let deltaY := clientY - st.lastMouseY
  let st := { st with lastMouseX := clientX, lastMouseY := clientY }
  if st.isPanning = true ∧ st.activeTool = .grab then
    { st with
      panX := st.panX + deltaX,
      panY := st.panY + deltaY,
      renderCount := st.renderCount + 1 }
  else if st.activeTool = .selection then
    selMove st x y
  else if st.activeTool = .eraser ∧ buttons = 1 then
    let filtered := st.shapes.filter fun s => !(hit x y s)
    if filtered.length < st.shapes.length then
      { st with
        shapes := filtered,
        saveScheduled := true,
        renderCount := st.renderCount + 1 }
    else
      { st with shapes := filtered }
  else if st.isDrawing = false then st
  else if st.activeTool = .grab ∨ st.activeTool = .eraser
      ∨ st.activeTool = .text then st
  else
    match st.shapes.getLast? with
    | none => st
    | some current =>
        { st with
          shapes := st.shapes.dropLast
            ++ [updateDrawnShape st.startX st.startY x y current],
          renderCount := st.renderCount + 1 }

/-- `handleMouseUp` (lines 439–453): a pan session just ends; every other
pointer-up clears the draw/drag/resize sessions, schedules a debounced
save, and renders — unconditionally. -/
def handleMouseUp (st : EngineState) : EngineState :=
  if st.isPanning = true then
    { st with isPanning := false }
  else
    { st with
      isDrawing := false,
      selDragging := false,
      selResizing := false,
      saveScheduled := true,
      renderCount := st.renderCount + 1 }

/-- `loadElements` (lines 119–122): assign the scene and render — nothing
else. -/
def loadElements (st : EngineState) (elements : Scene) : EngineState :=
  { st with shapes := elements, renderCount := st.renderCount + 1 }

/-- A concrete engine state (unit scale, origin pan, default styles, no
active session, no pending save) for the concrete instantiations below. -/
def mkState (shapes : Scene) (selected : Option Shape) (canvasId : String)
    (readOnly : Bool) (tool : ToolType) : EngineState :=
  ⟨shapes, selected, false, false, canvasId, readOnly, tool, false, false,
    0, 0, 1, 0, 0, 0, 0, 2, "#ffffff", "transparent", false, 0⟩

/-! ## Read-only mode (C5) -/

/-- C5 counterexample: the pointer handlers have no read-only guard.  On a
read-only engine, a pointer-down with the rectangle tool appends a shape
(the scene is mutated), and a pointer-down with the eraser tool schedules
a debounced persistence write — refuting both halves of the claim. -/
theorem readonly_counterexample :
    (mkState [] none "c5" true ToolType.rectangle).readOnly = true ∧
      (handleMouseDown (fun _ _ _ => false) (fun _ _ _ => false)
          (mkState [] none "c5" true ToolType.rectangle) 0 0 0 0 "id1").shapes
        ≠ [] ∧
      (handleMouseDown (fun _ _ _ => false) (fun _ _ _ => false)
          (mkState [] none "c5" true ToolType.eraser) 0 0 0 0
          "id1").saveScheduled = true := by
  decide

/-- C5 (amended): read-only mode disables performing persistence — every
fired write returns without a remote attempt and without a local fallback
write, leaving the engine state untouched — but it does not guard the
pointer handlers, which may still mutate the scene and schedule debounced
writes (that then no-op when they fire). -/
theorem readonly_disables_persist (st : EngineState) (ls : LocalStore)
    (remoteOk : Bool) (h : st.readOnly = true) :
    (persistToStorage st ls remoteOk).remoteAttempted = false ∧
      (persistToStorage st ls remoteOk).remoteWrite = none ∧
      (persistToStorage st ls remoteOk).localStore = ls ∧
      (persistToStorage st ls remoteOk).state = st := by
  unfold persistToStorage
  rw [if_pos (Or.inr (Or.inr (by simp [h])))]
  exact ⟨rfl, rfl, rfl, rfl⟩

/-- Witness for the amended C5 at a concrete read-only state. -/
theorem readonly_disables_persist_witness :
    (mkState [] none "c5w" true ToolType.selection).readOnly = true ∧
      (persistToStorage (mkState [] none "c5w" true ToolType.selection)
          (fun _ => none) true).remoteAttempted = false :=
  ⟨rfl, (readonly_disables_persist _ _ true rfl).1⟩

/-! ## Eraser semantics (C6) -/

/-- C6 (amended): on pointer-down with the eraser tool exactly those
shapes whose hit-test contains the pointer's world position are removed —
the scene becomes the filter of the survivors, a sublist of the original,
so the remaining shapes keep their relative order and are unmodified — and
a persistence write is scheduled unconditionally; on pointer-move with the
primary button held the same removal applies and a write is scheduled if
and only if at least one shape was removed. -/
theorem eraser_semantics (hit : HitFun) (handleAt : HandleFun)
    (selMove : SelMoveFun) (st : EngineState)
    (clientX clientY x y : ℚ) (newId : String)
    (hTool : st.activeTool = ToolType.eraser)
    (hPend : st.saveScheduled = false) :
    ((handleMouseDown hit handleAt st clientX clientY x y newId).shapes
        = st.shapes.filter (fun s => !(hit x y s)) ∧
      (handleMouseDown hit handleAt st clientX clientY x y
          newId).shapes.Sublist st.shapes ∧
      (handleMouseDown hit handleAt st clientX clientY x y
          newId).saveScheduled = true) ∧
    ((handleMouseMove hit selMove st clientX clientY x y 1).shapes
        = st.shapes.filter (fun s => !(hit x y s)) ∧
      (handleMouseMove hit selMove st clientX clientY x y
          1).shapes.Sublist st.shapes ∧
      ((handleMouseMove hit selMove st clientX clientY x y
          1).saveScheduled = true ↔
        (st.shapes.filter fun s => !(hit x y s)).length
          < st.shapes.length)) := by
  have hdown : (handleMouseDown hit handleAt st clientX clientY x y
      newId).shapes = st.shapes.filter (fun s => !(hit x y s)) := by
    simp [handleMouseDown, hTool]
  have hdownSave : (handleMouseDown hit handleAt st clientX clientY x y
      newId).saveScheduled = true := by
    simp [handleMouseDown, hTool]
  refine ⟨⟨hdown, hdown ▸ List.filter_sublist st.shapes, hdownSave⟩, ?_⟩
  by_cases hlt : (st.shapes.filter fun s => !(hit x y s)).length
      < st.shapes.length
  · have hmove : handleMouseMove hit selMove st clientX clientY x y 1
        = { st with
            lastMouseX := clientX,
            lastMouseY := clientY,
            shapes := st.shapes.filter fun s => !(hit x y s),
            saveScheduled := true,
            renderCount := st.renderCount + 1 } := by
      simp [handleMouseMove, hTool, hlt]
    rw [hmove]
    exact ⟨rfl, List.filter_sublist st.shapes, by simpa using hlt⟩
  · have hmove : handleMouseMove hit selMove st clientX clientY x y 1
        = { st with
            lastMouseX := clientX,
            lastMouseY := clientY,
            shapes := st.shapes.filter fun s => !(hit x y s) } := by
      simp [handleMouseMove, hTool, hlt]
    rw [hmove]
    exact ⟨rfl, List.filter_sublist st.shapes, by simp [hPend, hlt]⟩

/-- Witness for the amended C6: eraser pointer-down on a one-shape scene
whose hit-test contains the pointer removes it and schedules a write. -/
theorem eraser_semantics_witness :
    (mkState [Shape.rectangle "r" 0 0 4 4 2 "#fff" "t"] none "c6" false
        ToolType.eraser).activeTool = ToolType.eraser ∧
      (handleMouseDown (fun _ _ _ => true) (fun _ _ _ => false)
          (mkState [Shape.rectangle "r" 0 0 4 4 2 "#fff" "t"] none "c6"
            false ToolType.eraser) 0 0 0 0 "w").shapes = [] ∧
      (handleMouseDown (fun _ _ _ => true) (fun _ _ _ => false)
          (mkState [Shape.rectangle "r" 0 0 4 4 2 "#fff" "t"] none "c6"
            false ToolType.eraser) 0 0 0 0 "w").saveScheduled = true := by
  have h := eraser_semantics (fun _ _ _ => true) (fun _ _ _ => false)
    (fun s _ _ => s)
    (mkState [Shape.rectangle "r" 0 0 4 4 2 "#fff" "t"] none "c6" false
      ToolType.eraser) 0 0 0 0 "w" rfl rfl
  exact ⟨rfl, by simpa using h.1.1, h.1.2.2⟩

/-- C6 counterexample: with the eraser tool, a pointer-down that removes
nothing (here: an empty scene) still schedules a persistence write, so
"scheduled if and only if the scene changed" fails at pointer-down. -/
theorem eraser_counterexample :
    (handleMouseDown (fun _ _ _ => false) (fun _ _ _ => false)
        (mkState [] none "c6x" false ToolType.eraser) 0 0 0 0 "e").shapes
      = (mkState [] none "c6x" false ToolType.eraser).shapes ∧
    (mkState [] none "c6x" false ToolType.eraser).saveScheduled = false ∧
    (handleMouseDown (fun _ _ _ => false) (fun _ _ _ => false)
        (mkState [] none "c6x" false ToolType.eraser) 0 0 0 0
        "e").saveScheduled = true := by
  decide

/-! ## loadElements (C7) -/

/-- C7 counterexample: `loadElements` does not invalidate the selection
reference.  Replacing a one-shape scene with the empty scene leaves the
previously selected shape still selected — a dangling reference into the
replaced contents. -/
theorem loadElements_counterexample :
    (loadElements
        (mkState [Shape.rectangle "r0" 0 0 5 5 2 "#fff" "t"]
          (some (Shape.rectangle "r0" 0 0 5 5 2 "#fff" "t")) "c7" false
          ToolType.selection) []).shapes = [] ∧
      (loadElements
          (mkState [Shape.rectangle "r0" 0 0 5 5 2 "#fff" "t"]
            (some (Shape.rectangle "r0" 0 0 5 5 2 "#fff" "t")) "c7" false
            ToolType.selection) []).selected
        = some (Shape.rectangle "r0" 0 0 5 5 2 "#fff" "t") :=
  ⟨rfl, rfl⟩

/-- C7 (amended): `loadElements` replaces the scene wholesale with the
given sequence, schedules no persistence write, and leaves the selection
reference untouched — a previously selected shape remains selected (as a
reference into the replaced contents), contrary to invalidation. -/
theorem loadElements_replaces_without_persist (st : EngineState)
    (elements : Scene) :
    (loadElements st elements).shapes = elements ∧
      (loadElements st elements).saveScheduled = st.saveScheduled ∧
      (loadElements st elements).selected = st.selected ∧
      (loadElements st elements).renderCount = st.renderCount + 1 :=
  ⟨rfl, rfl, rfl, rfl⟩

/-! ## Ellipse drawing (C8) -/

/-- C8: Ellipse drawing.  On every pointer-move while drawing an ellipse
(started at world `(startX, startY)`, current world pointer `(x, y)`), the
shape's anchor becomes the midpoint `((startX + x)/2, (startY + y)/2)` of
the drag rectangle and its radii half the absolute drag extents
`(|x - startX|/2, |y - startY|/2)`. -/
theorem ellipse_drawing (hit : HitFun) (selMove : SelMoveFun)
    (st : EngineState) (clientX clientY x y : ℚ) (buttons : ℕ)
    (pre : Scene) (id : String) (ex ey rx ry sw : ℚ) (sf bf : String)
    (hTool : st.activeTool = ToolType.ellipse)
    (hDraw : st.isDrawing = true)
    (hShapes : st.shapes = pre ++ [Shape.ellipse id ex ey rx ry sw sf bf]) :
    (handleMouseMove hit selMove st clientX clientY x y buttons).shapes
      = pre ++ [Shape.ellipse id ((st.startX + x) / 2) ((st.startY + y) / 2)
          (|x - st.startX| / 2) (|y - st.startY| / 2) sw sf bf] := by
  simp [handleMouseMove, hTool, hDraw, hShapes, List.getLast?_concat,
    List.dropLast_concat, updateDrawnShape, Shape.ellipse.injEq]
  constructor <;> ring

/-- Witness for C8: dragging an ellipse started at `(1, 2)` to `(5, 10)`
recenters it at `(3, 6)` with radii `(2, 4)`. -/
theorem ellipse_drawing_witness :
    (handleMouseMove (fun _ _ _ => false) (fun s _ _ => s)
        { mkState [Shape.ellipse "e" 1 2 0 0 2 "#fff" "t"] none "c8" false
            ToolType.ellipse with
          isDrawing := true,
          startX := 1,
          startY := 2 } 0 0 5 10 0).shapes
      = [Shape.ellipse "e" 3 6 2 4 2 "#fff" "t"] := by
  have h := ellipse_drawing (fun _ _ _ => false) (fun s _ _ => s)
    { mkState [Shape.ellipse "e" 1 2 0 0 2 "#fff" "t"] none "c8" false
        ToolType.ellipse with
      isDrawing := true,
      startX := 1,
      startY := 2 } 0 0 5 10 0 [] "e" 1 2 0 0 2 "#fff" "t" rfl rfl rfl
  rw [h]
  norm_num

/-! ## Pointer-up persistence (C10) -/

/-- C10: every pointer-up that does not end a pan session schedules a
debounced persistence write and a redraw, and leaves the scene exactly as
it was — in particular a plain click on empty canvas with the selection
tool schedules a write of the unchanged scene. -/
theorem mouseup_always_persists (st : EngineState)
    (h : st.isPanning = false) :
    (handleMouseUp st).saveScheduled = true ∧
      (handleMouseUp st).renderCount = st.renderCount + 1 ∧
      (handleMouseUp st).shapes = st.shapes := by
  simp [handleMouseUp, h]

/-- Witness for C10: the plain-click scenario — selection-tool pointer-down
on an empty canvas (which selects nothing and mutates nothing), then
pointer-up, schedules a persistence write of the still-empty scene. -/
theorem mouseup_always_persists_witness :
    (handleMouseDown (fun _ _ _ => false) (fun _ _ _ => false)
        (mkState [] none "c10" false ToolType.selection) 0 0 0 0
        "w").isPanning = false ∧
      (handleMouseUp (handleMouseDown (fun _ _ _ => false)
          (fun _ _ _ => false) (mkState [] none "c10" false
            ToolType.selection) 0 0 0 0 "w")).saveScheduled = true ∧
      (handleMouseUp (handleMouseDown (fun _ _ _ => false)
          (fun _ _ _ => false) (mkState [] none "c10" false
            ToolType.selection) 0 0 0 0 "w")).shapes = [] := by
  have h := mouseup_always_persists (handleMouseDown (fun _ _ _ => false)
    (fun _ _ _ => false) (mkState [] none "c10" false ToolType.selection)
    0 0 0 0 "w") (by decide)
  exact ⟨by decide, h.1, h.2.2.trans (by decide)⟩

end Procastify
